import Mathlib

/-!
Verification of the RegageMetalls record-processing orchestration
(repository alx5409/Automatizacion, module src/mains/RegageMetalls.py).

The development shallowly embeds the module's core functions:

* `get_linkMiteco` — the pure URL builder (LinkBuilder), transcribed
  literal-for-literal from the Python source (Python concatenates the
  adjacent string literals of the source expression at compile time;
  here the same pieces are joined with `++`).
* `runRetry` — the `for intento in range(1, max+1): try/except/else`
  retry pattern shared by the page-open loop, the re-open loop and the
  internal loop of `autenticar_y_seleccionar_certificado`.  An attempt
  is abstracted by a boolean oracle `action : Nat → Bool` (`true` =
  the attempt's body ran without raising).
* `autenticar_y_seleccionar_certificado` — the authentication
  protocol: its internal retrier plus the `raise` in the `else` arm,
  modelled as an `Except` value.
* `descargar_documentos` / `procesar_registro` — the per-record
  download session.  External effects (browser configuration,
  navigation, certificate dialog, filesystem polling) are abstracted
  by an `Env` of outcome oracles; exceptions are `Except Exc`;
  observable steps (the `driver.quit()` call, warning/error log lines)
  are recorded in an event trace.  Info-level log lines that no claim
  refers to are not traced.
* `procesar_multiple_regages` — the batch loop over
  `/output/<carpeta>/<archivo>.json`, with the filesystem abstracted
  as a list of folders of record files, and the trash archive as an
  association list from destination path to archived file
  (`shutil.move` over an existing destination on the same POSIX
  filesystem replaces it, which `insertTrash` mirrors).
-/

set_option maxRecDepth 40000

/-! ## Data model: one record loaded from a regage .json file -/

/-- One parsed record, with the five optional keys the source reads via
`registro.get(...)`. -/
structure Registro where
  regage : Option String
  nif_productor : Option String
  nif_representante : Option String
  nombre_productor : Option String
  nombre_residuo : Option String
deriving DecidableEq

/-- Python `registro.get("regage", "")`. -/
def regageDe (r : Registro) : String := r.regage.getD ""

/-- Python `registro.get("nif_productor", "")`. -/
def nifProductorDe (r : Registro) : String := r.nif_productor.getD ""

/-- Python `registro.get("nif_representante", "")`. -/
def nifRepresentanteDe (r : Registro) : String := r.nif_representante.getD ""

/-- Python `s.replace(c, d)` for a one-character pattern and a
one-character replacement. -/
def pyReplaceChar (s : String) (c d : Char) : String :=
  ⟨s.data.map fun x => if x = c then d else x⟩

/-- Python `s.replace(c, "")` for a one-character pattern: every
occurrence of `c` is removed. -/
def pyRemoveChar (s : String) (c : Char) : String :=
  ⟨s.data.filter fun x => x != c⟩

/-- Python `registro.get("nombre_productor", "desconocido").replace(" ", "_")`. -/
def nombreProductorDe (r : Registro) : String :=
  pyReplaceChar (r.nombre_productor.getD "desconocido") ' ' '_'

/-- Python `registro.get("nombre_residuo", "desconocido").replace(" ", "_").replace("*", "")`. -/
def nombreResiduoDe (r : Registro) : String :=
  pyRemoveChar (pyReplaceChar (r.nombre_residuo.getD "desconocido") ' ' '_') '*'

/-! ## LinkBuilder: get_linkMiteco -/

/-- Transcription of `get_linkMiteco(regage_val, nif_productor,
nif_representante)`: each `++` joint corresponds to one string-literal
piece of the Python expression, in source order. -/
def get_linkMiteco (regage_val nif_productor nif_representante : String) : String :=
  "https://sede.miteco.gob.es/portal/site/seMITECO/area_personal"
  ++ "?btnDetalleProc=btnDetalleProc"
  ++ "&pagina=1"
  ++ ("&idExpediente=" ++ regage_val)
  ++ "&idProcedimiento=736"
  ++ "&idSubOrganoResp=11"
  ++ ("&idDocIdentificativo=" ++ nif_productor)
  ++ ("&idDocRepresentante=" ++ nif_representante)
  ++ "&idEstadoSeleccionado=-1"
  ++ "&idTipoProcSeleccionado=EN+REPRESENTACION+(REA)"
  ++ ("&regInicial=" ++ regage_val)
  ++ ("&nifTitular=" ++ nif_productor)
  ++ "&numPagSolSelec=10#no-back-button"

/-- The fixed URL text before the first substituted value. -/
def LINK_PRE : String :=
  "https://sede.miteco.gob.es/portal/site/seMITECO/area_personal?btnDetalleProc=btnDetalleProc&pagina=1&idExpediente="

/-- The fixed URL text between the case id and the producer id. -/
def LINK_MID1 : String :=
  "&idProcedimiento=736&idSubOrganoResp=11&idDocIdentificativo="

/-- The fixed URL text between the producer id and the representative id. -/
def LINK_MID2 : String := "&idDocRepresentante="

/-- The fixed URL text between the representative id and the second
occurrence of the case id. -/
def LINK_MID3 : String :=
  "&idEstadoSeleccionado=-1&idTipoProcSeleccionado=EN+REPRESENTACION+(REA)&regInicial="

/-- The fixed URL text between the second case id and the second
producer id. -/
def LINK_MID4 : String := "&nifTitular="

/-- The fixed URL tail after the last substituted value. -/
def LINK_SUF : String := "&numPagSolSelec=10#no-back-button"

/-- Substring containment: `t` occurs contiguously inside `s`. -/
def containsStr (s t : String) : Prop := ∃ a b : String, s = a ++ (t ++ b)

/-- Suffix predicate: `s` ends with `t`. -/
def endsWithStr (s t : String) : Prop := ∃ a : String, s = a ++ t

/-- Number of character positions of `s` at which `pat` occurs
(occurrences may overlap). -/
def countOccAux (pat : List Char) : List Char → Nat
  | [] => 0
  | c :: rest => (if pat.isPrefixOf (c :: rest) then 1 else 0) + countOccAux pat rest

/-- Number of occurrences of the string `pat` inside `s`. -/
def countOcc (s pat : String) : Nat := countOccAux pat.data s.data

/-! ## NavigationRetrier: the for/try/except/else retry pattern

All three retry loops of the module —

* `procesar_registro`, first `webFunctions.abrir_web` loop (ceiling 5000),
* `procesar_registro`, re-open loop after authentication (ceiling 5000),
* the internal loop of `autenticar_y_seleccionar_certificado` (ceiling 100)

— are instances of the same `for intento in range(1, max_intentos + 1):
try ... break / except ... log warning, sleep(0.5)` pattern, with a
`for/else` arm that logs an error on exhaustion.  `runRetry` embeds the
pattern over a boolean attempt oracle. -/

/-- Exception classification used by the `except` ladder of
`procesar_registro`: `TimeoutException`, `WebDriverException`, and any
other `Exception`. -/
inductive Exc
  | timeout
  | webdriver
  | generic
deriving DecidableEq

/-- Log events emitted by one retry loop: the warning (with attempt
index and the loop's total), the fixed `time.sleep(0.5)` after every
failed attempt, the success info line, and the error line of the
`for/else` exhaustion arm. -/
inductive REv
  | warn (i total : Nat)
  | sleep500
  | okInfo (i : Nat)
  | errExhausted
deriving DecidableEq

/-- Result of a retry loop: the successful attempt index (if any), the
number of attempts actually made, and the log trace. -/
structure RetryResult where
  success : Option Nat
  attempts : Nat
  trace : List REv
deriving DecidableEq

/-- Attempts `i, i+1, ...` while fuel lasts; `total` is only reported
in the warning lines. -/
def runRetryAux (action : Nat → Bool) (total : Nat) : Nat → Nat → RetryResult
  | 0, _ => ⟨none, 0, [REv.errExhausted]⟩
  | fuel + 1, i =>
    if action i then ⟨some i, 1, [REv.okInfo i]⟩
    else
      let r := runRetryAux action total fuel (i + 1)
      ⟨r.success, r.attempts + 1, REv.warn i total :: REv.sleep500 :: r.trace⟩

/-- The retry loop `for intento in range(1, maxIntentos + 1)` over an
attempt oracle. -/
def runRetry (action : Nat → Bool) (maxIntentos : Nat) : RetryResult :=
  runRetryAux action maxIntentos maxIntentos 1

/-- The warning/sleep log pattern left by a run in which every one of
the `n` attempts starting at index `i` failed, closed by the error
line of the `for/else` arm. -/
def exhaustTraceFrom (total i n : Nat) : List REv :=
  (List.range' i n).flatMap (fun j => [REv.warn j total, REv.sleep500]) ++ [REv.errExhausted]

/-! ## AuthenticationProtocol: autenticar_y_seleccionar_certificado

One inner attempt (wait for `breadcrumb`, click `acceder`, click the
certificate-access button, select the certificate) is abstracted by the
oracle value `action i`; the function retries up to 100 times and, in
the `for/else` arm, logs an error and `raise`s a plain `Exception`,
modelled as `Except.error Exc.generic`. -/
def autenticar_y_seleccionar_certificado (action : Nat → Bool) :
    Except Exc Unit × List REv :=
  let r := runRetry action 100
  match r.success with
  | some _ => (Except.ok (), r.trace)
  | none => (Except.error Exc.generic, r.trace)

/-- Whether one call of `autenticar_y_seleccionar_certificado` returned
normally (`true`) or raised (`false`) — the view its caller's retry
loop has of it. -/
def autenticarOk (action : Nat → Bool) : Bool :=
  match (autenticar_y_seleccionar_certificado action).fst with
  | Except.ok _ => true
  | Except.error _ => false

/-! ## DownloadSession: descargar_documentos and procesar_registro

External collaborators are abstracted into an environment of outcome
oracles; warnings/errors and the browser-release call `driver.quit()`
are recorded as events. -/

/-- Events observable at the record level. -/
inductive Ev
  | retry (e : REv)
  | quitCall (ok : Bool)
  | errNoBrowser
  | errOpenExhausted
  | errAuthExhausted
  | errReopenExhausted
  | errDownload
  | errRecord (cls : Exc) (regage nifProd nifRep : String)
deriving DecidableEq

/-- Outcome oracles for one `procesar_registro` call.

* `configure` — `webConfiguration.configure()`: a usable handle
  (`ok true`), a falsy value (`ok false`), or a raised exception;
* `abrir1 i` / `abrir2 i` — whether attempt `i` of
  `webFunctions.abrir_web` succeeds, for the first open and the
  re-open loop;
* `auth j i` — whether inner authentication attempt `i` of outer
  attempt `j` succeeds;
* `setup prod res` — `downloadFunctions.setup_descarga`, given the
  sanitized producer and waste names, returns a download path or
  raises;
* `snapshot path` — `downloadFunctions.snapshot_folder_state`;
* `click` — `webFunctions.clickar_todos_los_links(driver, ".pdf")`;
* `waitDownloads path` — `downloadFunctions.wait_for_new_download`;
* `quitOk` — whether `driver.quit()` itself returns normally. -/
structure Env where
  configure : Except Exc Bool
  abrir1 : Nat → Bool
  auth : Nat → Nat → Bool
  abrir2 : Nat → Bool
  setup : String → String → Except Exc String
  snapshot : String → Except Exc Unit
  click : Except Exc Unit
  waitDownloads : String → Except Exc (List String)
  quitOk : Bool

/-- `descargar_documentos(driver, download_path)`: snapshot the folder
(outside the `try`, so a raise there propagates without running the
`finally`), click the `.pdf` links and poll for the downloads inside a
`try` whose `except` logs and keeps the empty list, and `finally`
call `driver.quit()` (its own failure is caught and logged). -/
def descargar_documentos (env : Env) (download_path : String) :
    Except Exc (List String) × List Ev :=
  match env.snapshot download_path with
  | Except.error e => (Except.error e, [])
  | Except.ok _ =>
    match env.click with
    | Except.error _ => (Except.ok [], [Ev.errDownload, Ev.quitCall env.quitOk])
    | Except.ok _ =>
      match env.waitDownloads download_path with
      | Except.error _ => (Except.ok [], [Ev.errDownload, Ev.quitCall env.quitOk])
      | Except.ok fs => (Except.ok fs, [Ev.quitCall env.quitOk])

/-- `procesar_registro(registro)`: build the link, configure the
browser, open the link with retries (ceiling 5000), authenticate with
an outer retry loop (ceiling 5000) around
`autenticar_y_seleccionar_certificado`, re-open the link with retries
(ceiling 5000), set up the download folder, download, and on every
path release the browser: each early `return None` and each `except`
arm is followed by the `finally` that quits a still-live driver, while
after a completed `descargar_documentos` the driver was already quit
inside it (`driver = None`). -/
def procesar_registro (env : Env) (r : Registro) : Option (List String) × List Ev :=
  match env.configure with
  | Except.error e =>
    (none, [Ev.errRecord e (regageDe r) (nifProductorDe r) (nifRepresentanteDe r)])
  | Except.ok false => (none, [Ev.errNoBrowser])
  | Except.ok true =>
    let r1 := runRetry env.abrir1 5000
    let t1 := r1.trace.map Ev.retry
    match r1.success with
    | none => (none, t1 ++ [Ev.errOpenExhausted, Ev.quitCall env.quitOk])
    | some _ =>
      let r2 := runRetry (fun j => autenticarOk (env.auth j)) 5000
      let t2 := t1 ++ r2.trace.map Ev.retry
      match r2.success with
      | none => (none, t2 ++ [Ev.errAuthExhausted, Ev.quitCall env.quitOk])
      | some _ =>
        let r3 := runRetry env.abrir2 5000
        let t3 := t2 ++ r3.trace.map Ev.retry
        match r3.success with
        | none => (none, t3 ++ [Ev.errReopenExhausted, Ev.quitCall env.quitOk])
        | some _ =>
          match env.setup (nombreProductorDe r) (nombreResiduoDe r) with
          | Except.error e =>
            (none, t3 ++ [Ev.errRecord e (regageDe r) (nifProductorDe r) (nifRepresentanteDe r),
              Ev.quitCall env.quitOk])
          | Except.ok download_path =>
            match descargar_documentos env download_path with
            | (Except.error e, devs) =>
              (none, t3 ++ devs
                ++ [Ev.errRecord e (regageDe r) (nifProductorDe r) (nifRepresentanteDe r),
                  Ev.quitCall env.quitOk])
            | (Except.ok files, devs) => (some files, t3 ++ devs)

/-- Recognizer for the browser-release event. -/
def isQuitEv : Ev → Bool
  | Ev.quitCall _ => true
  | _ => false

/-- Number of `driver.quit()` calls in a trace. -/
def countQuit (t : List Ev) : Nat := t.countP isQuitEv

/-- The exception (if any) that escapes the `try` body of
`procesar_registro` and reaches its `except` ladder: a raise in
`webConfiguration.configure()`, in `setup_descarga`, or in the
snapshot step of `descargar_documentos`; the three retry loops and the
rest of `descargar_documentos` swallow their exceptions. -/
def boundaryRaised (env : Env) (r : Registro) : Option Exc :=
  match env.configure with
  | Except.error e => some e
  | Except.ok false => none
  | Except.ok true =>
    match (runRetry env.abrir1 5000).success with
    | none => none
    | some _ =>
      match (runRetry (fun j => autenticarOk (env.auth j)) 5000).success with
      | none => none
      | some _ =>
        match (runRetry env.abrir2 5000).success with
        | none => none
        | some _ =>
          match env.setup (nombreProductorDe r) (nombreResiduoDe r) with
          | Except.error e => some e
          | Except.ok download_path =>
            match env.snapshot download_path with
            | Except.error e => some e
            | Except.ok _ => none

/-! ## RecordBatchProcessor: procesar_multiple_regages

The filesystem under `/output` is abstracted as a list of producer
folders, each holding the `.json` record files `os.listdir` would
yield, in listing order; a file's `registro` is `none` when
`json.load` would raise.  The `trash` archive is an association list
from full destination path to the archived file; `shutil.move` onto
an existing destination path replaces it (POSIX `os.rename`
semantics), which `insertTrash` mirrors. -/

/-- One record file: its name and its parse result (`none` =
`json.load` raises). -/
structure Archivo where
  nombre : String
  registro : Option Registro
deriving DecidableEq

/-- One producer folder under `/output`. -/
structure Carpeta where
  nombre : String
  archivos : List Archivo
deriving DecidableEq

/-- Events observable at the batch level. -/
inductive BEv
  | errNoOutput
  | errNoCarpetas
  | errParse (ruta : String)
  | mkdirP (dir : String)
  | movedEv (src dest : String)
  | limitReached (m : Nat)
  | sleep10
  | finalInfo (n : Nat)
deriving DecidableEq

/-- Mutable state of the batch loop. -/
structure BatchState where
  procesados : Nat
  moved : List ((String × String) × String)
  skipped : List (String × String)
  trash : List (String × Archivo)
  events : List BEv
deriving DecidableEq

/-- `os.path.join(BASE_DIR, "trash", nombre_productor)` with the
producer name read and sanitized exactly as the source does. -/
def trashDirFor (reg : Registro) : String := "trash/" ++ nombreProductorDe reg

/-- `shutil.move` into the archive: an entry already present at the
same destination path is silently replaced. -/
def insertTrash (m : List (String × Archivo)) (k : String) (v : Archivo) :
    List (String × Archivo) :=
  (m.filter fun q => q.fst != k) ++ [(k, v)]

/-- The nested `for carpeta in carpetas: for archivo_json in
archivos_json:` iteration order, flattened. -/
def flattenFiles (carpetas : List Carpeta) : List (String × Archivo) :=
  carpetas.flatMap fun c => c.archivos.map fun a => (c.nombre, a)

/-- Identity of a record file: its folder name and file name. -/
def keyOf (p : String × Archivo) : String × String := (p.fst, p.snd.nombre)

/-- Whether `json.load` succeeds on the file. -/
def isParsed (p : String × Archivo) : Bool := p.snd.registro.isSome

/-- The file's source path. -/
def rutaOf (p : String × Archivo) : String := p.fst ++ "/" ++ p.snd.nombre

/-- The archive partition directory of a parsed file. -/
def dirOf (p : String × Archivo) : String :=
  match p.snd.registro with
  | some reg => trashDirFor reg
  | none => ""

/-- The archive destination path of a parsed file. -/
def destinoOf (p : String × Archivo) : String := dirOf p ++ "/" ++ p.snd.nombre

/-- The `moved` ledger entry a processed file produces. -/
def movedEntryOf (p : String × Archivo) : (String × String) × String :=
  (keyOf p, destinoOf p)

/-- The inner loop body of `procesar_multiple_regages` over the
flattened file list: check the limit (early `return`), `json.load`
(failure: log, `continue`, the file stays in place), call
`procesar_registro` (result unused by the loop), then
`os.makedirs(trash_dir, exist_ok=True)` and `shutil.move`, and the
10 s pacing sleep.  Returns the final state and the keys of the files
never reached. -/
def runBatchAux (envs : Nat → Env) (maxReg : Nat) :
    List (String × Archivo) → BatchState → BatchState × List (String × String)
  | [], st =>
    ({ st with events := st.events ++ [BEv.finalInfo st.procesados] }, [])
  | (c, a) :: rest, st =>
    if st.procesados ≥ maxReg then
      ({ st with events := st.events ++ [BEv.limitReached maxReg] },
        (c, a.nombre) :: rest.map keyOf)
    else
      match a.registro with
      | none =>
        runBatchAux envs maxReg rest
          { st with
            skipped := st.skipped ++ [(c, a.nombre)],
            events := st.events ++ [BEv.errParse (c ++ "/" ++ a.nombre)] }
      | some reg =>
        let _archivos_descargados := procesar_registro (envs st.procesados) reg
        runBatchAux envs maxReg rest
          { procesados := st.procesados + 1,
            moved := st.moved ++ [((c, a.nombre), trashDirFor reg ++ "/" ++ a.nombre)],
            skipped := st.skipped,
            trash := insertTrash st.trash (trashDirFor reg ++ "/" ++ a.nombre) a,
            events := st.events
              ++ [BEv.mkdirP (trashDirFor reg),
                BEv.movedEv (c ++ "/" ++ a.nombre) (trashDirFor reg ++ "/" ++ a.nombre),
                BEv.sleep10] }

/-- `procesar_multiple_regages(max_registros)`: abort with a logged
error when the output base is missing or no producer folder exists,
otherwise run the batch loop over all discovered record files.
`initTrash` is the archive content already present when the run
starts. -/
def procesar_multiple_regages (envs : Nat → Env) (maxReg : Nat) (outputExists : Bool)
    (carpetas : List Carpeta) (initTrash : List (String × Archivo)) :
    BatchState × List (String × String) :=
  if !outputExists then
    (⟨0, [], [], initTrash, [BEv.errNoOutput]⟩, (flattenFiles carpetas).map keyOf)
  else if carpetas.isEmpty then
    (⟨0, [], [], initTrash, [BEv.errNoCarpetas]⟩, [])
  else
    runBatchAux envs maxReg (flattenFiles carpetas) ⟨0, [], [], initTrash, []⟩

/-! ## Concrete sample inputs used by witnesses and counterexamples -/

/-- A record with all five keys present. -/
def regSample : Registro :=
  ⟨some "NT1", some "B1", some "X1", some "ACME SA", some "res 1"⟩

/-- A record with every key absent. -/
def regNone : Registro := ⟨none, none, none, none, none⟩

/-- A record whose producer name contains the reserved marker `*`. -/
def regStar : Registro := ⟨some "R", some "P", some "N", some "a*b", some "w"⟩

/-- An environment in which every external step succeeds at once. -/
def envTrivial : Env :=
  { configure := Except.ok true
    abrir1 := fun _ => true
    auth := fun _ _ => true
    abrir2 := fun _ => true
    setup := fun _ _ => Except.ok "dl"
    snapshot := fun _ => Except.ok ()
    click := Except.ok ()
    waitDownloads := fun _ => Except.ok []
    quitOk := true }

/-- Like `envTrivial` but `driver.quit()` itself raises. -/
def envQuitFails : Env := { envTrivial with quitOk := false }

/-- Like `envTrivial` but every `abrir_web` attempt of the first open
loop fails. -/
def envFailOpen : Env := { envTrivial with abrir1 := fun _ => false }

/-- Like `envTrivial` but `webConfiguration.configure()` raises a
`TimeoutException`. -/
def envRaise : Env := { envTrivial with configure := Except.error Exc.timeout }

/-! ## Stated forms of claims C1 and C7, and witness inputs -/

/-- Claim C1 exactly as stated: all parameter containments, the case
id appearing exactly twice in the URL, the producer id exactly twice,
the representative id exactly once (as raw occurrence counts), the
fixed parameters, and the URL suffix. -/
def c1Stated (c p n : String) : Prop :=
  containsStr (get_linkMiteco c p n) ("idExpediente=" ++ c)
  ∧ containsStr (get_linkMiteco c p n) ("regInicial=" ++ c)
  ∧ containsStr (get_linkMiteco c p n) ("idDocIdentificativo=" ++ p)
  ∧ containsStr (get_linkMiteco c p n) ("nifTitular=" ++ p)
  ∧ containsStr (get_linkMiteco c p n) ("idDocRepresentante=" ++ n)
  ∧ containsStr (get_linkMiteco c p n) "idProcedimiento=736"
  ∧ containsStr (get_linkMiteco c p n) "idSubOrganoResp=11"
  ∧ containsStr (get_linkMiteco c p n) "idEstadoSeleccionado=-1"
  ∧ containsStr (get_linkMiteco c p n) "idTipoProcSeleccionado=EN+REPRESENTACION+(REA)"
  ∧ endsWithStr (get_linkMiteco c p n) "numPagSolSelec=10#no-back-button"
  ∧ countOcc (get_linkMiteco c p n) c = 2
  ∧ countOcc (get_linkMiteco c p n) p = 2
  ∧ countOcc (get_linkMiteco c p n) n = 1

/-- The attempt oracle that fails strictly below `k` and succeeds from
`k` on. -/
def stepAct (k : Nat) : Nat → Bool := fun i => decide (k ≤ i)

/-- Claim C7 exactly as stated: both folder-naming fields are
defaulted to the sentinel and sanitized by replacing every space and
removing the reserved marker `*`. -/
def c7Stated (r : Registro) : Prop :=
  (∀ ch ∈ (nombreProductorDe r).data, ch ≠ ' ' ∧ ch ≠ '*')
  ∧ (r.nombre_productor = none → nombreProductorDe r = "desconocido")
  ∧ (∀ ch ∈ (nombreResiduoDe r).data, ch ≠ ' ' ∧ ch ≠ '*')
  ∧ (r.nombre_residuo = none → nombreResiduoDe r = "desconocido")

/-- A parseable record file of producer ACME. -/
def regACME : Registro := ⟨some "NT9", some "B9", some "X9", some "ACME", some "w1"⟩

/-- The record file `r1.json` holding `regACME`. -/
def archivoR1 : Archivo := ⟨"r1.json", some regACME⟩

/-- A second record file of the same producer. -/
def archivoR2 : Archivo := ⟨"r2.json", some regACME⟩

/-- A stale archived file with the same name as `archivoR1` but
different (unparseable) content, as left by a previous crashed run. -/
def archivoOld : Archivo := ⟨"r1.json", none⟩

/-- One producer folder holding one record file. -/
def carpetaACME : Carpeta := ⟨"ACME", [archivoR1]⟩

/-- One producer folder holding two record files. -/
def carpetaTwo : Carpeta := ⟨"ACME", [archivoR1, archivoR2]⟩

/-! ## Theorems -/

theorem containsStr_intro {s t : String} (a b : String) (h : s = a ++ (t ++ b)) :
    containsStr s t := ⟨a, b, h⟩

theorem chunkPRE (X : String) :
    "https://sede.miteco.gob.es/portal/site/seMITECO/area_personal"
      ++ ("?btnDetalleProc=btnDetalleProc" ++ ("&pagina=1" ++ ("&idExpediente=" ++ X)))
      = LINK_PRE ++ X := by
  rw [← String.append_assoc, ← String.append_assoc, ← String.append_assoc]
  rfl

theorem chunkMID1 (X : String) :
    "&idProcedimiento=736" ++ ("&idSubOrganoResp=11" ++ ("&idDocIdentificativo=" ++ X))
      = LINK_MID1 ++ X := by
  rw [← String.append_assoc, ← String.append_assoc]
  rfl

theorem chunkMID3 (X : String) :
    "&idEstadoSeleccionado=-1"
      ++ ("&idTipoProcSeleccionado=EN+REPRESENTACION+(REA)" ++ ("&regInicial=" ++ X))
      = LINK_MID3 ++ X := by
  rw [← String.append_assoc, ← String.append_assoc]
  rfl

/-- Structural decomposition of the produced URL: the three inputs are
substituted verbatim into five slots separated by the six fixed
segments — the case id into exactly the two slots `idExpediente` and
`regInicial`, the producer id into exactly the two slots
`idDocIdentificativo` and `nifTitular`, the representative id into
exactly the one slot `idDocRepresentante`. -/
theorem link_decomp (r p n : String) :
    get_linkMiteco r p n
      = LINK_PRE ++ (r ++ (LINK_MID1 ++ (p ++ (LINK_MID2
          ++ (n ++ (LINK_MID3 ++ (r ++ (LINK_MID4 ++ (p ++ LINK_SUF))))))))) := by
  simp only [get_linkMiteco, LINK_MID2, LINK_MID4, LINK_SUF, String.append_assoc]
  rw [chunkPRE, chunkMID1, chunkMID3]

theorem contains_idExpediente (r p n : String) :
    containsStr (get_linkMiteco r p n) ("idExpediente=" ++ r) := by
  refine containsStr_intro
    "https://sede.miteco.gob.es/portal/site/seMITECO/area_personal?btnDetalleProc=btnDetalleProc&pagina=1&"
    (LINK_MID1 ++ (p ++ (LINK_MID2 ++ (n ++ (LINK_MID3 ++ (r ++ (LINK_MID4 ++ (p ++ LINK_SUF)))))))) ?_
  rw [link_decomp,
    show LINK_PRE
      = "https://sede.miteco.gob.es/portal/site/seMITECO/area_personal?btnDetalleProc=btnDetalleProc&pagina=1&"
        ++ "idExpediente=" from rfl]
  simp only [String.append_assoc]

theorem contains_regInicial (r p n : String) :
    containsStr (get_linkMiteco r p n) ("regInicial=" ++ r) := by
  refine containsStr_intro
    (LINK_PRE ++ (r ++ (LINK_MID1 ++ (p ++ (LINK_MID2 ++ (n
      ++ "&idEstadoSeleccionado=-1&idTipoProcSeleccionado=EN+REPRESENTACION+(REA)&"))))))
    (LINK_MID4 ++ (p ++ LINK_SUF)) ?_
  rw [link_decomp,
    show LINK_MID3
      = "&idEstadoSeleccionado=-1&idTipoProcSeleccionado=EN+REPRESENTACION+(REA)&"
        ++ "regInicial=" from rfl]
  simp only [String.append_assoc]

theorem contains_idDocIdentificativo (r p n : String) :
    containsStr (get_linkMiteco r p n) ("idDocIdentificativo=" ++ p) := by
  refine containsStr_intro
    (LINK_PRE ++ (r ++ "&idProcedimiento=736&idSubOrganoResp=11&"))
    (LINK_MID2 ++ (n ++ (LINK_MID3 ++ (r ++ (LINK_MID4 ++ (p ++ LINK_SUF)))))) ?_
  rw [link_decomp,
    show LINK_MID1
      = "&idProcedimiento=736&idSubOrganoResp=11&" ++ "idDocIdentificativo=" from rfl]
  simp only [String.append_assoc]

theorem contains_nifTitular (r p n : String) :
    containsStr (get_linkMiteco r p n) ("nifTitular=" ++ p) := by
  refine containsStr_intro
    (LINK_PRE ++ (r ++ (LINK_MID1 ++ (p ++ (LINK_MID2 ++ (n ++ (LINK_MID3 ++ (r ++ "&"))))))))
    LINK_SUF ?_
  rw [link_decomp, show LINK_MID4 = "&" ++ "nifTitular=" from rfl]
  simp only [String.append_assoc]

theorem contains_idDocRepresentante (r p n : String) :
    containsStr (get_linkMiteco r p n) ("idDocRepresentante=" ++ n) := by
  refine containsStr_intro
    (LINK_PRE ++ (r ++ (LINK_MID1 ++ (p ++ "&"))))
    (LINK_MID3 ++ (r ++ (LINK_MID4 ++ (p ++ LINK_SUF)))) ?_
  rw [link_decomp, show LINK_MID2 = "&" ++ "idDocRepresentante=" from rfl]
  simp only [String.append_assoc]

theorem contains_idProcedimiento (r p n : String) :
    containsStr (get_linkMiteco r p n) "idProcedimiento=736" := by
  refine containsStr_intro (LINK_PRE ++ (r ++ "&"))
    ("&idSubOrganoResp=11&idDocIdentificativo="
      ++ (p ++ (LINK_MID2 ++ (n ++ (LINK_MID3 ++ (r ++ (LINK_MID4 ++ (p ++ LINK_SUF)))))))) ?_
  rw [link_decomp,
    show LINK_MID1
      = "&" ++ ("idProcedimiento=736" ++ "&idSubOrganoResp=11&idDocIdentificativo=") from rfl]
  simp only [String.append_assoc]

theorem contains_idSubOrganoResp (r p n : String) :
    containsStr (get_linkMiteco r p n) "idSubOrganoResp=11" := by
  refine containsStr_intro (LINK_PRE ++ (r ++ "&idProcedimiento=736&"))
    ("&idDocIdentificativo="
      ++ (p ++ (LINK_MID2 ++ (n ++ (LINK_MID3 ++ (r ++ (LINK_MID4 ++ (p ++ LINK_SUF)))))))) ?_
  rw [link_decomp,
    show LINK_MID1
      = "&idProcedimiento=736&" ++ ("idSubOrganoResp=11" ++ "&idDocIdentificativo=") from rfl]
  simp only [String.append_assoc]

theorem contains_idEstadoSeleccionado (r p n : String) :
    containsStr (get_linkMiteco r p n) "idEstadoSeleccionado=-1" := by
  refine containsStr_intro
    (LINK_PRE ++ (r ++ (LINK_MID1 ++ (p ++ (LINK_MID2 ++ (n ++ "&"))))))
    ("&idTipoProcSeleccionado=EN+REPRESENTACION+(REA)&regInicial="
      ++ (r ++ (LINK_MID4 ++ (p ++ LINK_SUF)))) ?_
  rw [link_decomp,
    show LINK_MID3
      = "&" ++ ("idEstadoSeleccionado=-1"
        ++ "&idTipoProcSeleccionado=EN+REPRESENTACION+(REA)&regInicial=") from rfl]
  simp only [String.append_assoc]

theorem contains_idTipoProcSeleccionado (r p n : String) :
    containsStr (get_linkMiteco r p n) "idTipoProcSeleccionado=EN+REPRESENTACION+(REA)" := by
  refine containsStr_intro
    (LINK_PRE ++ (r ++ (LINK_MID1 ++ (p ++ (LINK_MID2 ++ (n ++ "&idEstadoSeleccionado=-1&"))))))
    ("&regInicial=" ++ (r ++ (LINK_MID4 ++ (p ++ LINK_SUF)))) ?_
  rw [link_decomp,
    show LINK_MID3
      = "&idEstadoSeleccionado=-1&"
        ++ ("idTipoProcSeleccionado=EN+REPRESENTACION+(REA)" ++ "&regInicial=") from rfl]
  simp only [String.append_assoc]

theorem ends_numPagSolSelec (r p n : String) :
    endsWithStr (get_linkMiteco r p n) "numPagSolSelec=10#no-back-button" := by
  refine ⟨LINK_PRE ++ (r ++ (LINK_MID1 ++ (p ++ (LINK_MID2
    ++ (n ++ (LINK_MID3 ++ (r ++ (LINK_MID4 ++ (p ++ "&"))))))))), ?_⟩
  rw [link_decomp, show LINK_SUF = "&" ++ "numPagSolSelec=10#no-back-button" from rfl]
  simp only [String.append_assoc]

theorem runRetryAux_fail (action : Nat → Bool) (total : Nat)
    (hf : ∀ i, action i = false) :
    ∀ fuel i, runRetryAux action total fuel i = ⟨none, fuel, exhaustTraceFrom total i fuel⟩ := by
  intro fuel
  induction fuel with
  | zero => intro i; simp [runRetryAux, exhaustTraceFrom]
  | succ m ih =>
    intro i
    simp [runRetryAux, hf i, ih (i + 1), exhaustTraceFrom, List.range'_succ]

/-- On an always-failing action the retrier makes exactly its ceiling's
number of attempts, logging a warning with attempt index and total plus
a 500 ms sleep after each failure, then logs an error; it reports
exhaustion in its result value. -/
theorem runRetry_fail (action : Nat → Bool) (maxIntentos : Nat)
    (hf : ∀ i, action i = false) :
    runRetry action maxIntentos
      = ⟨none, maxIntentos, exhaustTraceFrom maxIntentos 1 maxIntentos⟩ :=
  runRetryAux_fail action maxIntentos hf maxIntentos 1

theorem runRetryAux_succ (action : Nat → Bool) (total k : Nat)
    (hk : action k = true) (hlt : ∀ i, i < k → action i = false) :
    ∀ fuel i, i ≤ k → k < i + fuel →
      (runRetryAux action total fuel i).success = some k
        ∧ (runRetryAux action total fuel i).attempts = k + 1 - i := by
  intro fuel
  induction fuel with
  | zero => intro i h1 h2; omega
  | succ m ih =>
    intro i h1 h2
    by_cases hi : action i = true
    · have hik : i = k := by
        by_contra hne
        have : i < k := lt_of_le_of_ne h1 hne
        rw [hlt i this] at hi
        exact Bool.false_ne_true hi
      subst hik
      simp [runRetryAux, hi]
    · have hilt : i < k := by
        rcases lt_or_eq_of_le h1 with h | h
        · exact h
        · subst h; rw [hk] at hi; exact absurd rfl hi
      have := ih (i + 1) (by omega) (by omega)
      have hif : action i = false := by
        cases h : action i
        · rfl
        · exact absurd h hi
      simp only [runRetryAux, hif, Bool.false_eq_true, if_false]
      refine ⟨this.1, ?_⟩
      rw [this.2]
      omega

/-- If the action fails on attempts `1..k-1` and succeeds on attempt
`k ≤ ceiling`, the retrier stops at attempt `k`: exactly `k` attempts,
success reported. -/
theorem runRetry_succ (action : Nat → Bool) (maxIntentos k : Nat)
    (h1 : 1 ≤ k) (hN : k ≤ maxIntentos)
    (hk : action k = true) (hlt : ∀ i, i < k → action i = false) :
    (runRetry action maxIntentos).success = some k
      ∧ (runRetry action maxIntentos).attempts = k := by
  have h := runRetryAux_succ action maxIntentos k hk hlt maxIntentos 1 h1 (by omega)
  unfold runRetry
  refine ⟨h.1, ?_⟩
  rw [h.2]
  omega

theorem countQuit_append (a b : List Ev) : countQuit (a ++ b) = countQuit a + countQuit b :=
  List.countP_append _ _ _

theorem countQuit_retry_map (l : List REv) : countQuit (l.map Ev.retry) = 0 := by
  induction l with
  | nil => rfl
  | cons a l ih => simp [countQuit, List.countP_cons, isQuitEv, ih]

theorem countP_quit_comp (l : List REv) : List.countP (isQuitEv ∘ Ev.retry) l = 0 := by
  induction l with
  | nil => rfl
  | cons a l ih => simp [List.countP_cons, isQuitEv, Function.comp, ih]

/-- In `descargar_documentos` the browser is released exactly once as
soon as the snapshot step did not raise, and not at all (there) when it
did — the raise then propagates with the driver still live. -/
theorem descargar_quit (env : Env) (p : String) :
    (∀ e, (descargar_documentos env p).fst = Except.error e
        → (descargar_documentos env p).snd = [])
    ∧ (∀ fs, (descargar_documentos env p).fst = Except.ok fs
        → countQuit (descargar_documentos env p).snd = 1) := by
  unfold descargar_documentos
  rcases env.snapshot p with e | u
  · exact ⟨fun e h => rfl, fun fs h => by simp at h⟩
  · rcases env.click with e | u
    · exact ⟨fun e h => by simp at h, fun fs h => by simp [countQuit, List.countP_cons, isQuitEv]⟩
    · rcases env.waitDownloads p with e | fs
      · exact ⟨fun e h => by simp at h, fun fs h => by simp [countQuit, List.countP_cons, isQuitEv]⟩
      · exact ⟨fun e h => by simp at h, fun gs h => by simp [countQuit, List.countP_cons, isQuitEv]⟩

theorem procesar_quit (env : Env) (r : Registro) (h : env.configure = Except.ok true) :
    countQuit (procesar_registro env r).snd = 1 := by
  have hq : countQuit [Ev.quitCall env.quitOk] = 1 := by
    simp [countQuit, List.countP_cons, isQuitEv]
  simp only [procesar_registro, h]
  rcases h1 : (runRetry env.abrir1 5000).success with _ | k1
  · simp [countQuit_append, countQuit_retry_map, countP_quit_comp, countQuit, List.countP_cons, isQuitEv]
  · rcases h2 : (runRetry (fun j => autenticarOk (env.auth j)) 5000).success with _ | k2
    · simp [countQuit_append, countQuit_retry_map, countP_quit_comp, countQuit, List.countP_cons, isQuitEv]
    · rcases h3 : (runRetry env.abrir2 5000).success with _ | k3
      · simp [countQuit_append, countQuit_retry_map, countP_quit_comp, countQuit, List.countP_cons, isQuitEv]
      · rcases hs : env.setup (nombreProductorDe r) (nombreResiduoDe r) with e | dp
        · simp [countQuit_append, countQuit_retry_map, countP_quit_comp, countQuit, List.countP_cons, isQuitEv]
        · rcases hd : descargar_documentos env dp with ⟨res, devs⟩
          rcases res with e | fs
          · have hdev : devs = [] := by
              have := (descargar_quit env dp).1 e
              rw [hd] at this
              exact this rfl
            subst hdev
            simp [hd, countQuit_append, countQuit_retry_map, countP_quit_comp, countQuit, List.countP_cons, isQuitEv]
          · have hdev : countQuit devs = 1 := by
              have := (descargar_quit env dp).2 fs
              rw [hd] at this
              exact this rfl
            unfold countQuit at hdev
            simp [hd, countQuit_append, countQuit_retry_map, countP_quit_comp, countQuit, List.countP_cons, isQuitEv, hdev]

theorem procesar_boundary (env : Env) (r : Registro) (e : Exc)
    (h : boundaryRaised env r = some e) :
    (procesar_registro env r).fst = none
      ∧ Ev.errRecord e (regageDe r) (nifProductorDe r) (nifRepresentanteDe r)
          ∈ (procesar_registro env r).snd := by
  unfold boundaryRaised at h
  rcases hc : env.configure with ec | b
  · simp only [hc, Option.some.injEq] at h
    subst h
    simp [procesar_registro, hc]
  · rcases b with _ | _
    · simp only [hc] at h
      exact Option.noConfusion h
    · simp only [hc] at h
      rcases h1 : (runRetry env.abrir1 5000).success with _ | k1
      · simp only [h1] at h
        exact Option.noConfusion h
      · simp only [h1] at h
        rcases h2 : (runRetry (fun j => autenticarOk (env.auth j)) 5000).success with _ | k2
        · simp only [h2] at h
          exact Option.noConfusion h
        · simp only [h2] at h
          rcases h3 : (runRetry env.abrir2 5000).success with _ | k3
          · simp only [h3] at h
            exact Option.noConfusion h
          · simp only [h3] at h
            rcases hs : env.setup (nombreProductorDe r) (nombreResiduoDe r) with es | dp
            · simp only [hs, Option.some.injEq] at h
              subst h
              simp [procesar_registro, hc, h1, h2, h3, hs]
            · simp only [hs] at h
              rcases hsn : env.snapshot dp with esn | u
              · simp only [hsn, Option.some.injEq] at h
                subst h
                have hd : descargar_documentos env dp = (Except.error esn, []) := by
                  unfold descargar_documentos
                  rw [hsn]
                simp [procesar_registro, hc, h1, h2, h3, hs, hd]
              · simp only [hsn] at h
                exact Option.noConfusion h

theorem runBatchAux_spec (envs : Nat → Env) (maxReg : Nat) (files : List (String × Archivo)) :
    ∀ st : BatchState,
      ∃ pre post,
        files = pre ++ post
        ∧ pre.filter isParsed = (files.filter isParsed).take (maxReg - st.procesados)
        ∧ (runBatchAux envs maxReg files st).snd = post.map keyOf
        ∧ (runBatchAux envs maxReg files st).fst.procesados
            = st.procesados + (pre.filter isParsed).length
        ∧ (runBatchAux envs maxReg files st).fst.moved
            = st.moved ++ (pre.filter isParsed).map movedEntryOf
        ∧ (runBatchAux envs maxReg files st).fst.skipped
            = st.skipped ++ (pre.filter (fun q => !(isParsed q))).map keyOf
        ∧ (∃ evs, (runBatchAux envs maxReg files st).fst.events = st.events ++ evs)
        ∧ (∀ p ∈ pre.filter isParsed,
            BEv.mkdirP (dirOf p) ∈ (runBatchAux envs maxReg files st).fst.events
              ∧ BEv.movedEv (rutaOf p) (destinoOf p)
                  ∈ (runBatchAux envs maxReg files st).fst.events)
        ∧ (∀ p ∈ pre.filter (fun q => !(isParsed q)),
            BEv.errParse (rutaOf p) ∈ (runBatchAux envs maxReg files st).fst.events) := by
  induction files with
  | nil =>
    intro st
    refine ⟨[], [], rfl, by simp, ?_, ?_, ?_, ?_, ⟨[BEv.finalInfo st.procesados], ?_⟩, ?_, ?_⟩
      <;> simp [runBatchAux]
  | cons hd rest ih =>
    intro st
    obtain ⟨c, a⟩ := hd
    by_cases hlim : st.procesados ≥ maxReg
    · have h0 : maxReg - st.procesados = 0 := by omega
      have hstep : runBatchAux envs maxReg ((c, a) :: rest) st
          = ({ st with events := st.events ++ [BEv.limitReached maxReg] },
              (c, a.nombre) :: rest.map keyOf) := by
        simp [runBatchAux, hlim]
      refine ⟨[], (c, a) :: rest, rfl, by simp [h0], ?_, ?_, ?_, ?_,
        ⟨[BEv.limitReached maxReg], ?_⟩, ?_, ?_⟩ <;> simp [hstep, keyOf]
    · have hlt : st.procesados < maxReg := by omega
      rcases ha : a.registro with _ | reg
      · -- json.load raises: log, continue, file not moved
        have hP : isParsed (c, a) = false := by simp [isParsed, ha]
        set st2 : BatchState :=
          { st with
            skipped := st.skipped ++ [(c, a.nombre)],
            events := st.events ++ [BEv.errParse (c ++ "/" ++ a.nombre)] } with hst2
        have hstep : runBatchAux envs maxReg ((c, a) :: rest) st
            = runBatchAux envs maxReg rest st2 := by
          simp [runBatchAux, hlim, ha, hst2]
        obtain ⟨pre, post, hsplit, htake, hunt, hproc, hmov, hskip, ⟨evs, hev⟩, hm1, hm2⟩ :=
          ih st2
        have hpre2 : st2.procesados = st.procesados := rfl
        refine ⟨(c, a) :: pre, post, by simp [hsplit], ?_, ?_, ?_, ?_, ?_, ?_, ?_, ?_⟩
        · simp only [List.filter_cons, hP, Bool.false_eq_true, if_false]
          rw [htake, hpre2]
        · rw [hstep, hunt]
        · rw [hstep, hproc, hpre2]
          simp [List.filter_cons, hP]
        · rw [hstep, hmov]
          simp [List.filter_cons, hP, hst2]
        · rw [hstep, hskip]
          simp [List.filter_cons, hP, hst2, keyOf]
        · refine ⟨[BEv.errParse (c ++ "/" ++ a.nombre)] ++ evs, ?_⟩
          rw [hstep, hev]
          simp [hst2]
        · intro p hp
          simp only [List.filter_cons, hP, Bool.false_eq_true, if_false] at hp
          rw [hstep]
          exact hm1 p hp
        · intro p hp
          have hp2 : p = (c, a) ∨ p ∈ pre.filter (fun q => !(isParsed q)) := by
            simpa [List.filter_cons, hP] using hp
          rcases hp2 with hp2 | hp2
          · subst hp2
            rw [hstep, hev]
            refine List.mem_append_left _ ?_
            simp [hst2, rutaOf]
          · rw [hstep]
            exact hm2 p hp2
      · -- parsed: procesar_registro, then archive into the producer partition
        have hP : isParsed (c, a) = true := by simp [isParsed, ha]
        set st2 : BatchState :=
          { procesados := st.procesados + 1,
            moved := st.moved ++ [((c, a.nombre), trashDirFor reg ++ "/" ++ a.nombre)],
            skipped := st.skipped,
            trash := insertTrash st.trash (trashDirFor reg ++ "/" ++ a.nombre) a,
            events := st.events
              ++ [BEv.mkdirP (trashDirFor reg),
                BEv.movedEv (c ++ "/" ++ a.nombre) (trashDirFor reg ++ "/" ++ a.nombre),
                BEv.sleep10] } with hst2
        have hstep : runBatchAux envs maxReg ((c, a) :: rest) st
            = runBatchAux envs maxReg rest st2 := by
          simp [runBatchAux, hlim, ha, hst2]
        obtain ⟨pre, post, hsplit, htake, hunt, hproc, hmov, hskip, ⟨evs, hev⟩, hm1, hm2⟩ :=
          ih st2
        have hpre2 : st2.procesados = st.procesados + 1 := rfl
        have hdir : dirOf (c, a) = trashDirFor reg := by simp [dirOf, ha]
        have hdest : destinoOf (c, a) = trashDirFor reg ++ "/" ++ a.nombre := by
          simp [destinoOf, hdir]
        have hentry : movedEntryOf (c, a) = ((c, a.nombre), trashDirFor reg ++ "/" ++ a.nombre) := by
          simp [movedEntryOf, keyOf, hdest]
        have harith : maxReg - st.procesados = (maxReg - (st.procesados + 1)) + 1 := by omega
        refine ⟨(c, a) :: pre, post, by simp [hsplit], ?_, ?_, ?_, ?_, ?_, ?_, ?_, ?_⟩
        · simp only [List.filter_cons, hP, if_true]
          rw [harith, List.take_succ_cons, htake, hpre2]
        · rw [hstep, hunt]
        · rw [hstep, hproc, hpre2]
          simp [List.filter_cons, hP]
          omega
        · rw [hstep, hmov]
          simp [List.filter_cons, hP, hst2, hentry]
        · rw [hstep, hskip]
          simp [List.filter_cons, hP, hst2]
        · refine ⟨[BEv.mkdirP (trashDirFor reg),
            BEv.movedEv (c ++ "/" ++ a.nombre) (trashDirFor reg ++ "/" ++ a.nombre),
            BEv.sleep10] ++ evs, ?_⟩
          rw [hstep, hev]
          simp [hst2]
        · intro p hp
          have hp2 : p = (c, a) ∨ p ∈ pre.filter isParsed := by
            simpa [List.filter_cons, hP] using hp
          rcases hp2 with hp2 | hp2
          · subst hp2
            rw [hstep, hev]
            constructor
            · rw [hdir]
              refine List.mem_append_left _ ?_
              simp [hst2]
            · rw [hdest]
              refine List.mem_append_left _ ?_
              simp [hst2, rutaOf]
          · rw [hstep]
            exact hm1 p hp2
        · intro p hp
          have hp2 : p ∈ pre.filter (fun q => !(isParsed q)) := by
            simpa [List.filter_cons, hP] using hp
          rw [hstep]
          exact hm2 p hp2

/-! ## Claim C1 -/

/-- Claim C1 as stated is false for the non-empty triple
("1", "2", "3"): the representative id "3" also occurs inside the
fixed text `idProcedimiento=736`, so it occurs twice, not once (and
"1" occurs seven times, not twice). -/
theorem c1_counterexample :
    ("1" ≠ "" ∧ "2" ≠ "" ∧ "3" ≠ "") ∧ ¬ c1Stated "1" "2" "3" := by
  refine ⟨⟨by decide, by decide, by decide⟩, ?_⟩
  intro h
  exact absurd h.2.2.2.2.2.2.2.2.2.2.2.2 (by decide)

/-- Claim C1, amended: for every non-empty triple the URL contains
`idExpediente=<case>`, `regInicial=<case>`, `idDocIdentificativo=<producer>`,
`nifTitular=<producer>`, `idDocRepresentante=<rep>`, all fixed
parameters verbatim, and ends with `numPagSolSelec=10#no-back-button`;
the occurrence counts hold slot-wise, not as raw substring counts: the
case id is substituted into exactly the two slots `idExpediente` and
`regInicial`, the producer id into exactly the two slots
`idDocIdentificativo` and `nifTitular`, and the representative id into
exactly the one slot `idDocRepresentante`, as the closing structural
decomposition states. -/
theorem c1_link_params (c p n : String) (hc : c ≠ "") (hp : p ≠ "") (hn : n ≠ "") :
    containsStr (get_linkMiteco c p n) ("idExpediente=" ++ c)
  ∧ containsStr (get_linkMiteco c p n) ("regInicial=" ++ c)
  ∧ containsStr (get_linkMiteco c p n) ("idDocIdentificativo=" ++ p)
  ∧ containsStr (get_linkMiteco c p n) ("nifTitular=" ++ p)
  ∧ containsStr (get_linkMiteco c p n) ("idDocRepresentante=" ++ n)
  ∧ containsStr (get_linkMiteco c p n) "idProcedimiento=736"
  ∧ containsStr (get_linkMiteco c p n) "idSubOrganoResp=11"
  ∧ containsStr (get_linkMiteco c p n) "idEstadoSeleccionado=-1"
  ∧ containsStr (get_linkMiteco c p n) "idTipoProcSeleccionado=EN+REPRESENTACION+(REA)"
  ∧ endsWithStr (get_linkMiteco c p n) "numPagSolSelec=10#no-back-button"
  ∧ get_linkMiteco c p n
      = LINK_PRE ++ (c ++ (LINK_MID1 ++ (p ++ (LINK_MID2
          ++ (n ++ (LINK_MID3 ++ (c ++ (LINK_MID4 ++ (p ++ LINK_SUF))))))))) :=
  ⟨contains_idExpediente c p n, contains_regInicial c p n,
    contains_idDocIdentificativo c p n, contains_nifTitular c p n,
    contains_idDocRepresentante c p n, contains_idProcedimiento c p n,
    contains_idSubOrganoResp c p n, contains_idEstadoSeleccionado c p n,
    contains_idTipoProcSeleccionado c p n, ends_numPagSolSelec c p n,
    link_decomp c p n⟩

/-- Instance of the amended claim C1 at the spec's own example triple. -/
theorem c1_link_params_witness :
    get_linkMiteco "NT30460004811420250013409" "B12345678" "X7654321Z"
      = LINK_PRE ++ ("NT30460004811420250013409" ++ (LINK_MID1 ++ ("B12345678" ++ (LINK_MID2
          ++ ("X7654321Z" ++ (LINK_MID3 ++ ("NT30460004811420250013409"
            ++ (LINK_MID4 ++ ("B12345678" ++ LINK_SUF))))))))) :=
  (c1_link_params "NT30460004811420250013409" "B12345678" "X7654321Z"
    (by decide) (by decide) (by decide)).2.2.2.2.2.2.2.2.2.2

/-! ## Claim C10 -/

/-- Claim C10: `get_linkMiteco` substitutes its three arguments into
the URL character-for-character, with no URL-encoding, escaping, or
validation — for every input triple, including empty strings and
strings holding URL metacharacters, the result is exactly the six
fixed segments interleaved verbatim with the inputs, and each raw
input occurs contiguously in the output. -/
theorem c10_verbatim_substitution (c p n : String) :
    get_linkMiteco c p n
      = LINK_PRE ++ (c ++ (LINK_MID1 ++ (p ++ (LINK_MID2
          ++ (n ++ (LINK_MID3 ++ (c ++ (LINK_MID4 ++ (p ++ LINK_SUF)))))))))
    ∧ containsStr (get_linkMiteco c p n) c
    ∧ containsStr (get_linkMiteco c p n) p
    ∧ containsStr (get_linkMiteco c p n) n := by
  refine ⟨link_decomp c p n, ?_, ?_, ?_⟩
  · exact ⟨LINK_PRE,
      LINK_MID1 ++ (p ++ (LINK_MID2 ++ (n ++ (LINK_MID3 ++ (c ++ (LINK_MID4 ++ (p ++ LINK_SUF))))))),
      link_decomp c p n⟩
  · refine ⟨LINK_PRE ++ (c ++ LINK_MID1),
      LINK_MID2 ++ (n ++ (LINK_MID3 ++ (c ++ (LINK_MID4 ++ (p ++ LINK_SUF))))), ?_⟩
    rw [link_decomp]
    simp only [String.append_assoc]
  · refine ⟨LINK_PRE ++ (c ++ (LINK_MID1 ++ (p ++ LINK_MID2))),
      LINK_MID3 ++ (c ++ (LINK_MID4 ++ (p ++ LINK_SUF))), ?_⟩
    rw [link_decomp]
    simp only [String.append_assoc]

/-! ## Claim C3 -/

/-- Claim C3 as stated is false for the authentication protocol's
internal retrier: on an always-failing action
`autenticar_y_seleccionar_certificado` does not signal exhaustion
without raising — its `for/else` arm raises a plain `Exception`
past the retrier's boundary to the caller. -/
theorem c3_counterexample :
    (autenticar_y_seleccionar_certificado (fun _ => false)).fst = Except.error Exc.generic
      ∧ (autenticar_y_seleccionar_certificado (fun _ => false)).fst ≠ Except.ok () := by
  have h : (autenticar_y_seleccionar_certificado (fun _ => false)).fst
      = Except.error Exc.generic := by
    have h100 := runRetry_fail (fun _ => false) 100 (fun _ => rfl)
    simp [autenticar_y_seleccionar_certificado, h100]
  refine ⟨h, ?_⟩
  rw [h]
  intro hh
  exact Except.noConfusion hh

/-- Claim C3, amended: on an always-failing action every retry loop
makes exactly its ceiling's number of attempts, logging a warning with
attempt index and total and sleeping 500 ms after each failure, then
logs an error.  The page-open and re-open loops then signal exhaustion
to their caller without raising: `procesar_registro` returns no result
(and still releases the browser exactly once).  The authentication
protocol's internal retrier instead signals exhaustion by raising an
exception to its caller — which the enclosing outer retry loop of
`procesar_registro` catches. -/
theorem c3_retry_exhaustion (act : Nat → Bool) (N : Nat) (env : Env) (r : Registro)
    (hf : ∀ i, act i = false) (henv : env.abrir1 = act)
    (hcfg : env.configure = Except.ok true) :
    (runRetry act N).attempts = N
      ∧ (runRetry act N).success = none
      ∧ (runRetry act N).trace = exhaustTraceFrom N 1 N
      ∧ (autenticar_y_seleccionar_certificado act).fst = Except.error Exc.generic
      ∧ (procesar_registro env r).fst = none
      ∧ Ev.errOpenExhausted ∈ (procesar_registro env r).snd
      ∧ countQuit (procesar_registro env r).snd = 1 := by
  have hN := runRetry_fail act N hf
  have h5000 := runRetry_fail act 5000 hf
  have h100 := runRetry_fail act 100 hf
  refine ⟨by rw [hN], by rw [hN], by rw [hN], ?_, ?_, ?_, procesar_quit env r hcfg⟩
  · simp [autenticar_y_seleccionar_certificado, h100]
  · simp [procesar_registro, hcfg, henv, h5000]
  · simp [procesar_registro, hcfg, henv, h5000]

/-- Instance of the amended claim C3 at a concrete always-failing
action with ceiling 3 and a concrete environment. -/
theorem c3_retry_exhaustion_witness :
    (runRetry (fun _ => false) 3).attempts = 3
      ∧ (procesar_registro envFailOpen regSample).fst = none :=
  ⟨(c3_retry_exhaustion (fun _ => false) 3 envFailOpen regSample
      (fun _ => rfl) rfl rfl).1,
    (c3_retry_exhaustion (fun _ => false) 3 envFailOpen regSample
      (fun _ => rfl) rfl rfl).2.2.2.2.1⟩

/-! ## Claim C8 -/

/-- Claim C8: if an action fails on attempts `1 .. k-1` and succeeds
on attempt `k ≤ ceiling`, the retry loop makes exactly `k` attempts —
none after the success — and reports the operation successful.  All
three retry loops of the module (the two `abrir_web` loops with
ceiling 5000 and the authentication loop with ceiling 100) are
`runRetry` instances. -/
theorem c8_retry_short_circuit (act : Nat → Bool) (maxI k : Nat)
    (h1 : 1 ≤ k) (hN : k ≤ maxI) (hk : act k = true)
    (hlt : ∀ i, i < k → act i = false) :
    (runRetry act maxI).success = some k ∧ (runRetry act maxI).attempts = k :=
  runRetry_succ act maxI k h1 hN hk hlt

/-- Instance of claim C8: failures on attempts 1 and 2, success on
attempt 3, ceiling 5. -/
theorem c8_retry_short_circuit_witness :
    (runRetry (stepAct 3) 5).success = some 3
      ∧ (runRetry (stepAct 3) 5).attempts = 3 :=
  c8_retry_short_circuit (stepAct 3) 5 3 (by omega) (by omega) (by decide)
    (by intro i hi; simp [stepAct]; omega)

/-! ## Claim C2 -/

/-- Claim C2: on every execution path of `procesar_registro` on which
the browser handle was successfully created — normal completion,
exception while triggering downloads, exception while polling for
downloads, exception during navigation or authentication, retry
exhaustion — the browser-release step `driver.quit()` is executed
exactly once before the function returns (either inside
`descargar_documentos`'s `finally`, or in `procesar_registro`'s own
`finally` when the driver is still live). -/
theorem c2_browser_teardown (env : Env) (r : Registro)
    (h : env.configure = Except.ok true) :
    countQuit (procesar_registro env r).snd = 1 :=
  procesar_quit env r h

/-- Instance of claim C2 on the all-success environment. -/
theorem c2_browser_teardown_witness :
    countQuit (procesar_registro envTrivial regSample).snd = 1 :=
  c2_browser_teardown envTrivial regSample rfl

/-! ## Claim C6 -/

/-- Claim C6: every exception that escapes the `try` body of
`procesar_registro` is caught at its boundary, classified by the
`except` ladder (timeout, browser-level, generic), logged together
with the record's case id, producer id and representative id, and
converted into a `None` return — `procesar_registro` is a total
function into `Option`, so no per-record exception reaches the batch
loop of `procesar_multiple_regages`. -/
theorem c6_record_boundary (env : Env) (r : Registro) (e : Exc)
    (h : boundaryRaised env r = some e) :
    (procesar_registro env r).fst = none
      ∧ Ev.errRecord e (regageDe r) (nifProductorDe r) (nifRepresentanteDe r)
          ∈ (procesar_registro env r).snd :=
  procesar_boundary env r e h

/-- Instance of claim C6: a `TimeoutException` raised by
`webConfiguration.configure()` is logged with the record's three ids
and turned into a `None` result. -/
theorem c6_record_boundary_witness :
    (procesar_registro envRaise regSample).fst = none
      ∧ Ev.errRecord Exc.timeout "NT1" "B1" "X1"
          ∈ (procesar_registro envRaise regSample).snd :=
  c6_record_boundary envRaise regSample Exc.timeout rfl

/-! ## Claim C7 -/

/-- Claim C7 as stated is false: the producer name is only
space-sanitized, the `*` marker is not removed from it — `a*b` keeps
its `*`. -/
theorem c7_counterexample : ¬ c7Stated regStar := by
  intro h
  have hmem : '*' ∈ (nombreProductorDe regStar).data := by decide
  exact (h.1 '*' hmem).2 rfl

/-- Claim C7, amended: both fields default to the sentinel
`"desconocido"` when absent and have every space replaced by `_`; the
waste name additionally has every `*` removed, while the producer
name keeps any `*` it contains. -/
theorem c7_sanitize (r : Registro) :
    (∀ ch ∈ (nombreProductorDe r).data, ch ≠ ' ')
  ∧ (r.nombre_productor = none → nombreProductorDe r = "desconocido")
  ∧ (∀ ch ∈ (nombreResiduoDe r).data, ch ≠ ' ' ∧ ch ≠ '*')
  ∧ (r.nombre_residuo = none → nombreResiduoDe r = "desconocido") := by
  refine ⟨?_, ?_, ?_, ?_⟩
  · intro ch hch
    simp only [nombreProductorDe, pyReplaceChar] at hch
    obtain ⟨x, hx, hfx⟩ := List.mem_map.mp hch
    by_cases hxs : x = ' '
    · rw [if_pos hxs] at hfx
      rw [← hfx]
      decide
    · rw [if_neg hxs] at hfx
      rw [← hfx]
      exact hxs
  · intro h
    simp only [nombreProductorDe, h]
    decide
  · intro ch hch
    simp only [nombreResiduoDe, pyRemoveChar, pyReplaceChar] at hch
    have hch2 := List.mem_filter.mp hch
    have hstar : ch ≠ '*' := by
      have := hch2.2
      simpa using this
    obtain ⟨x, hx, hfx⟩ := List.mem_map.mp hch2.1
    refine ⟨?_, hstar⟩
    by_cases hxs : x = ' '
    · rw [if_pos hxs] at hfx
      rw [← hfx]
      decide
    · rw [if_neg hxs] at hfx
      rw [← hfx]
      exact hxs
  · intro h
    simp only [nombreResiduoDe, h]
    decide

/-- Instance of the amended claim C7: the absent fields of a record
with no keys default to the sentinel. -/
theorem c7_sanitize_witness :
    nombreProductorDe regNone = "desconocido"
      ∧ nombreResiduoDe regNone = "desconocido" :=
  ⟨(c7_sanitize regNone).2.1 rfl, (c7_sanitize regNone).2.2.2 rfl⟩

/-! ## Claim C5 -/

/-- Claim C5: the batch stops after exactly `max_registros`
successfully-parsed records even if more record files exist —
`procesados` is the minimum of the limit and the number of parseable
files, the moved ledger lists exactly the first `max_registros`
parseable files in traversal order — and a file whose content fails
to parse is logged (`errParse`) and skipped: it never counts toward
the limit and the loop continues past it. -/
theorem c5_batch_limit (envs : Nat → Env) (maxReg : Nat) (carpetas : List Carpeta)
    (initTrash : List (String × Archivo)) :
    (procesar_multiple_regages envs maxReg true carpetas initTrash).fst.procesados
        = min maxReg ((flattenFiles carpetas).filter isParsed).length
      ∧ ((procesar_multiple_regages envs maxReg true carpetas initTrash).fst.moved).map Prod.fst
          = (((flattenFiles carpetas).filter isParsed).take maxReg).map keyOf
      ∧ ∀ k ∈ (procesar_multiple_regages envs maxReg true carpetas initTrash).fst.skipped,
          (∃ p ∈ flattenFiles carpetas, isParsed p = false ∧ keyOf p = k)
            ∧ BEv.errParse (k.fst ++ "/" ++ k.snd)
                ∈ (procesar_multiple_regages envs maxReg true carpetas initTrash).fst.events := by
  by_cases hemp : carpetas.isEmpty
  · have hnil : carpetas = [] := List.isEmpty_iff.mp hemp
    subst hnil
    simp [procesar_multiple_regages, flattenFiles]
  · have hrun : procesar_multiple_regages envs maxReg true carpetas initTrash
        = runBatchAux envs maxReg (flattenFiles carpetas) ⟨0, [], [], initTrash, []⟩ := by
      simp [procesar_multiple_regages, hemp]
    obtain ⟨pre, post, hsplit, htake, hunt, hproc, hmov, hskip, hev, hm1, hm2⟩ :=
      runBatchAux_spec envs maxReg (flattenFiles carpetas) ⟨0, [], [], initTrash, []⟩
    rw [hrun]
    refine ⟨?_, ?_, ?_⟩
    · rw [hproc, htake]
      simp [List.length_take]
    · rw [hmov, htake]
      simp only [List.nil_append, List.map_map]
      rfl
    · intro k hk
      rw [hskip] at hk
      simp only [List.nil_append] at hk
      obtain ⟨q, hq, hkey⟩ := List.mem_map.mp hk
      have hqf := List.mem_filter.mp hq
      have hqpre : q ∈ pre := hqf.1
      have hqnp : isParsed q = false := by
        have := hqf.2
        simp only [Bool.not_eq_true'] at this
        exact this
      refine ⟨⟨q, ?_, hqnp, hkey⟩, ?_⟩
      · rw [hsplit]
        exact List.mem_append_left post hqpre
      · have := hm2 q hq
        rw [← hkey]
        exact this

/-! ## Claim C4 -/

theorem runBatchAux_env_indep (maxReg : Nat) (envs envs2 : Nat → Env) :
    ∀ (files : List (String × Archivo)) (st : BatchState),
      runBatchAux envs maxReg files st = runBatchAux envs2 maxReg files st := by
  intro files
  induction files with
  | nil => intro st; rfl
  | cons hd rest ih =>
    intro st
    obtain ⟨c, a⟩ := hd
    by_cases hlim : st.procesados ≥ maxReg
    · simp [runBatchAux, hlim]
    · rcases ha : a.registro with _ | reg
      · simp only [runBatchAux, if_neg hlim, ha]
        exact ih _
      · simp only [runBatchAux, if_neg hlim, ha]
        exact ih _

/-- Claim C4: the archiving step is independent of the outcome of
`procesar_registro` (two arbitrary outcome oracles produce the same
moved ledger), and every file recorded as moved is a parseable record
file of the input tree, moved — not copied — into the archive
partition named after its (sanitized) producer: its destination is
`trash/<producer>/<file>`, the partition directory was created with
`exist_ok` semantics, the move was performed, and the file is in
neither the skipped list nor the untouched remainder of the source
tree. -/
theorem c4_archive_partition (envs envs2 : Nat → Env) (maxReg : Nat)
    (carpetas : List Carpeta) (initTrash : List (String × Archivo)) (c nom d : String)
    (hnd : ((flattenFiles carpetas).map keyOf).Nodup)
    (hmem : ((c, nom), d)
      ∈ (procesar_multiple_regages envs maxReg true carpetas initTrash).fst.moved) :
    (procesar_multiple_regages envs maxReg true carpetas initTrash).fst.moved
        = (procesar_multiple_regages envs2 maxReg true carpetas initTrash).fst.moved
      ∧ (∃ a reg, (c, a) ∈ flattenFiles carpetas ∧ a.nombre = nom
          ∧ a.registro = some reg
          ∧ d = trashDirFor reg ++ "/" ++ nom
          ∧ BEv.mkdirP (trashDirFor reg)
              ∈ (procesar_multiple_regages envs maxReg true carpetas initTrash).fst.events
          ∧ BEv.movedEv (c ++ "/" ++ nom) d
              ∈ (procesar_multiple_regages envs maxReg true carpetas initTrash).fst.events)
      ∧ (c, nom) ∉ (procesar_multiple_regages envs maxReg true carpetas initTrash).fst.skipped
      ∧ (c, nom) ∉ (procesar_multiple_regages envs maxReg true carpetas initTrash).snd
      ∧ ((procesar_multiple_regages envs maxReg true carpetas initTrash).fst.moved).map Prod.fst
          = (((flattenFiles carpetas).filter isParsed).take maxReg).map keyOf := by
  by_cases hemp : carpetas.isEmpty
  · exfalso
    simp [procesar_multiple_regages, hemp] at hmem
  · have hrun : procesar_multiple_regages envs maxReg true carpetas initTrash
        = runBatchAux envs maxReg (flattenFiles carpetas) ⟨0, [], [], initTrash, []⟩ := by
      simp [procesar_multiple_regages, hemp]
    have hrun2 : procesar_multiple_regages envs2 maxReg true carpetas initTrash
        = runBatchAux envs2 maxReg (flattenFiles carpetas) ⟨0, [], [], initTrash, []⟩ := by
      simp [procesar_multiple_regages, hemp]
    obtain ⟨pre, post, hsplit, htake, hunt, hproc, hmov, hskip, hev, hm1, hm2⟩ :=
      runBatchAux_spec envs maxReg (flattenFiles carpetas) ⟨0, [], [], initTrash, []⟩
    rw [hrun] at hmem
    rw [hmov] at hmem
    simp only [List.nil_append] at hmem
    obtain ⟨p, hpf, hpe⟩ := List.mem_map.mp hmem
    have hpfil := List.mem_filter.mp hpf
    have hppre : p ∈ pre := hpfil.1
    have hpp : isParsed p = true := hpfil.2
    obtain ⟨reg, hreg⟩ : ∃ reg, p.snd.registro = some reg := by
      have : p.snd.registro.isSome = true := hpp
      exact Option.isSome_iff_exists.mp this
    have hkey : keyOf p = (c, nom) := congrArg Prod.fst hpe
    have hdest : destinoOf p = d := congrArg Prod.snd hpe
    have hpc : p.fst = c := congrArg Prod.fst hkey
    have hpn : p.snd.nombre = nom := congrArg Prod.snd hkey
    have hdir : dirOf p = trashDirFor reg := by
      unfold dirOf
      rw [hreg]
    have hd : d = trashDirFor reg ++ "/" ++ nom := by
      rw [← hdest]
      unfold destinoOf
      rw [hdir, hpn]
    have hndall : (pre.map keyOf ++ post.map keyOf).Nodup := by
      rw [← List.map_append, ← hsplit]
      exact hnd
    obtain ⟨hndpre, hndpost, hdisj⟩ := List.nodup_append.mp hndall
    have hkmem : (c, nom) ∈ pre.map keyOf := by
      rw [← hkey]
      exact List.mem_map_of_mem keyOf hppre
    refine ⟨?_, ?_, ?_, ?_, ?_⟩
    · rw [hrun, hrun2, runBatchAux_env_indep maxReg envs envs2]
    · refine ⟨p.snd, reg, ?_, hpn, hreg, hd, ?_, ?_⟩
      · rw [hsplit]
        refine List.mem_append_left post ?_
        rw [← hpc]
        exact hppre
      · rw [hrun, ← hdir]
        exact (hm1 p hpf).1
      · rw [hrun]
        have hthis := (hm1 p hpf).2
        have hruta : rutaOf p = c ++ "/" ++ nom := by
          unfold rutaOf
          rw [hpc, hpn]
        rw [hruta, hdest] at hthis
        exact hthis
    · intro hk
      rw [hrun, hskip] at hk
      simp only [List.nil_append] at hk
      obtain ⟨q, hq, hqk⟩ := List.mem_map.mp hk
      have hperm : (pre.filter isParsed ++ pre.filter (fun x => !isParsed x)).Perm pre :=
        List.filter_append_perm isParsed pre
      have hndsum : ((pre.filter isParsed ++ pre.filter (fun x => !isParsed x)).map keyOf).Nodup :=
        (hperm.map keyOf).symm.nodup hndpre
      rw [List.map_append] at hndsum
      have hdisj2 := List.disjoint_of_nodup_append hndsum
      have h1 : (c, nom) ∈ (pre.filter isParsed).map keyOf := by
        rw [← hkey]
        exact List.mem_map_of_mem keyOf hpf
      have h2 : (c, nom) ∈ (pre.filter (fun x => !isParsed x)).map keyOf := by
        rw [← hqk]
        exact List.mem_map_of_mem keyOf hq
      exact hdisj2 h1 h2
    · intro hk
      rw [hrun, hunt] at hk
      exact hdisj hkmem hk
    · rw [hrun, hmov, htake]
      simp only [List.nil_append, List.map_map]
      rfl

/-- Instance of claim C4: the moved ledger does not depend on the
per-record outcomes (here: quit succeeding vs. quit raising). -/
theorem c4_archive_partition_witness :
    (procesar_multiple_regages (fun _ => envTrivial) 100 true [carpetaACME] []).fst.moved
      = (procesar_multiple_regages (fun _ => envQuitFails) 100 true [carpetaACME] []).fst.moved :=
  (c4_archive_partition (fun _ => envTrivial) (fun _ => envQuitFails) 100 [carpetaACME] []
    "ACME" "r1.json" "trash/ACME/r1.json" (by decide) (by decide)).1

/-- Instance of claim C5, the spec's end-to-end scenario: two record
files in one producer folder and `max_registros = 1` — exactly one
record is processed. -/
theorem c5_batch_limit_witness :
    (procesar_multiple_regages (fun _ => envTrivial) 1 true [carpetaTwo] []).fst.procesados
      = 1 := by
  have h := (c5_batch_limit (fun _ => envTrivial) 1 [carpetaTwo] []).1
  rw [h]
  decide

/-! ## Claim C9 -/

/-- Claim C9 is a requirement the code does not meet: re-archiving a
record file whose name already exists in the producer's trash
partition silently replaces the previously archived file —
`shutil.move` has no existence check, no renaming policy, and emits
no warning (POSIX `os.rename` semantics).  At the concrete failing
input (a prior run left `trash/ACME/r1.json`, and `output/ACME`
holds a fresh `r1.json`), after the run the archive holds only the
new file and the old archived file is gone. -/
theorem c9_archive_overwrite :
    (procesar_multiple_regages (fun _ => envTrivial) 100 true [carpetaACME]
        [("trash/ACME/r1.json", archivoOld)]).fst.trash
      = [("trash/ACME/r1.json", archivoR1)]
    ∧ ("trash/ACME/r1.json", archivoOld)
        ∉ (procesar_multiple_regages (fun _ => envTrivial) 100 true [carpetaACME]
            [("trash/ACME/r1.json", archivoOld)]).fst.trash := by
  constructor
  · decide
  · decide
